import Mathlib

/-!
Shallow embedding of the ComfyUI-Downloader server extension (src/__init__.py)
and proofs about its download coordinator.  Each definition mirrors a piece of
the Python source; line numbers in doc comments refer to src/__init__.py.
Machine integers are modelled as Nat (sizes and byte counts are non-negative
and far from any overflow in the Python source, which has arbitrary precision
integers anyway); times and progress percentages are modelled as exact
rationals.
-/

namespace ComfyDownloader

/-- Configuration constant CHUNK_SIZE = 32 * 1024 * 1024 (line 22). -/
def CHUNK_SIZE : Nat := 32 * 1024 * 1024

/-- Configuration constant NUM_CONNECTIONS = 8 (line 23). -/
def NUM_CONNECTIONS : Nat := 8

/-- One byte range [start, endIncl] assigned to a chunk downloader
(the values start and end computed in download_file, lines 335-337). -/
structure Chunk where
  start : Nat
  endIncl : Nat
deriving DecidableEq

/-- The chunk ranges computed in download_file lines 332-337:
chunk_size = total_size // NUM_CONNECTIONS, and for each i in
range(NUM_CONNECTIONS): start = i * chunk_size,
end = start + chunk_size - 1 if i < NUM_CONNECTIONS - 1 else total_size - 1. -/
def chunkRanges (total_size : Nat) : List Chunk :=
  let chunk_size := total_size / NUM_CONNECTIONS
  (List.range NUM_CONNECTIONS).map fun i =>
    { start := i * chunk_size,
      endIncl := if i < NUM_CONNECTIONS - 1 then i * chunk_size + chunk_size - 1
                 else total_size - 1 }

/-- The transfer mode chosen by download_file. -/
inductive Plan where
  | multi (chunks : List Chunk)
  | single
deriving DecidableEq

/-- The branch at line 328: multi-connection iff supports_range and
total_size > CHUNK_SIZE, otherwise the single connection fallback. -/
def downloadPlan (supports_range : Bool) (total_size : Nat) : Plan :=
  if supports_range = true ∧ CHUNK_SIZE < total_size then Plan.multi (chunkRanges total_size)
  else Plan.single

/-- Contiguity of consecutive ranges: chunk i ends right before chunk i+1. -/
def contiguousB : List Chunk → Bool
  | [] => true
  | [_] => true
  | a :: b :: rest => (a.endIncl + 1 == b.start) && contiguousB (b :: rest)

/-- Strict pairwise disjointness: every earlier chunk ends before every
later chunk starts. -/
def disjointB : List Chunk → Bool
  | [] => true
  | a :: rest => rest.all (fun b => decide (a.endIncl < b.start)) && disjointB rest

/-- Number of bytes covered by one inclusive chunk range. -/
def chunkLen (c : Chunk) : Nat := c.endIncl - c.start + 1

/-- Total number of bytes covered by a list of chunk ranges. -/
def sumLens (l : List Chunk) : Nat := (l.map chunkLen).sum

/-- Claim C1: with range support and total_size > CHUNK_SIZE, download_file
partitions the file into exactly NUM_CONNECTIONS = 8 chunks, chunk i
(for i < 7) covering [i*(total_size/8), (i+1)*(total_size/8) - 1] and the
last chunk covering [7*(total_size/8), total_size - 1]; the ranges are
contiguous, non-overlapping, and their lengths sum to exactly total_size. -/
theorem c1_download_file_chunk_plan (t : Nat) (h : CHUNK_SIZE < t) :
    downloadPlan true t = Plan.multi (chunkRanges t) ∧
    (chunkRanges t).length = NUM_CONNECTIONS ∧
    chunkRanges t =
      [⟨0, t / 8 - 1⟩, ⟨t / 8, 2 * (t / 8) - 1⟩, ⟨2 * (t / 8), 3 * (t / 8) - 1⟩,
       ⟨3 * (t / 8), 4 * (t / 8) - 1⟩, ⟨4 * (t / 8), 5 * (t / 8) - 1⟩,
       ⟨5 * (t / 8), 6 * (t / 8) - 1⟩, ⟨6 * (t / 8), 7 * (t / 8) - 1⟩,
       ⟨7 * (t / 8), t - 1⟩] ∧
    contiguousB (chunkRanges t) = true ∧
    disjointB (chunkRanges t) = true ∧
    sumLens (chunkRanges t) = t := by
  have h8 : 8 ≤ t := by
    have : (8 : Nat) ≤ CHUNK_SIZE := by norm_num [CHUNK_SIZE]
    omega
  have hcs1 : 1 ≤ t / 8 := (Nat.one_le_div_iff (by norm_num)).2 h8
  have hcs8 : t / 8 * 8 ≤ t := Nat.div_mul_le_self t 8
  have hex : chunkRanges t =
      [⟨0, t / 8 - 1⟩, ⟨t / 8, 2 * (t / 8) - 1⟩, ⟨2 * (t / 8), 3 * (t / 8) - 1⟩,
       ⟨3 * (t / 8), 4 * (t / 8) - 1⟩, ⟨4 * (t / 8), 5 * (t / 8) - 1⟩,
       ⟨5 * (t / 8), 6 * (t / 8) - 1⟩, ⟨6 * (t / 8), 7 * (t / 8) - 1⟩,
       ⟨7 * (t / 8), t - 1⟩] := by
    have hr : List.range NUM_CONNECTIONS = [0, 1, 2, 3, 4, 5, 6, 7] := rfl
    simp only [chunkRanges, hr, List.map, NUM_CONNECTIONS]
    norm_num
    refine ⟨?_, ?_, ?_, ?_, ?_, ?_⟩ <;> omega
  refine ⟨?_, ?_, hex, ?_, ?_, ?_⟩
  · simp [downloadPlan, h]
  · simp [chunkRanges, NUM_CONNECTIONS]
  · rw [hex]
    simp only [contiguousB, Bool.and_eq_true, beq_iff_eq, and_true]
    omega
  · rw [hex]
    simp only [disjointB, List.all_cons, List.all_nil, Bool.and_eq_true,
      decide_eq_true_eq, and_true]
    omega
  · rw [hex]
    simp only [sumLens, chunkLen, List.map, List.sum_cons, List.sum_nil]
    omega

/-- Witness for C1 at the concrete size CHUNK_SIZE + 1 = 33554433. -/
theorem c1_download_file_chunk_plan_witness :
    downloadPlan true 33554433 = Plan.multi (chunkRanges 33554433) ∧
    (chunkRanges 33554433).length = NUM_CONNECTIONS ∧
    chunkRanges 33554433 =
      [⟨0, 33554433 / 8 - 1⟩, ⟨33554433 / 8, 2 * (33554433 / 8) - 1⟩,
       ⟨2 * (33554433 / 8), 3 * (33554433 / 8) - 1⟩,
       ⟨3 * (33554433 / 8), 4 * (33554433 / 8) - 1⟩,
       ⟨4 * (33554433 / 8), 5 * (33554433 / 8) - 1⟩,
       ⟨5 * (33554433 / 8), 6 * (33554433 / 8) - 1⟩,
       ⟨6 * (33554433 / 8), 7 * (33554433 / 8) - 1⟩,
       ⟨7 * (33554433 / 8), 33554433 - 1⟩] ∧
    contiguousB (chunkRanges 33554433) = true ∧
    disjointB (chunkRanges 33554433) = true ∧
    sumLens (chunkRanges 33554433) = 33554433 :=
  c1_download_file_chunk_plan 33554433 (by norm_num [CHUNK_SIZE])

/-! ### Size discovery (download_file lines 280-315)

The two HTTP probes are modelled by their observable responses; a value of
none stands for a request that raised an exception.  Header values are raw
strings (absent header = none); applying the Python int() builtin to a header
is modelled by intOfHeader, where none stands for a raised ValueError. -/

/-- Observable outcome of the HEAD probe (lines 286-289). -/
structure HeadResp where
  status : Nat
  content_length : Option String
  accept_ranges : Option String
deriving DecidableEq

/-- Observable outcome of the GET bytes=0-0 probe (lines 298-310). -/
structure GetResp where
  status : Nat
  content_range : Option String
  content_length : Option String
deriving DecidableEq

/-- Model of Python str.split(sep) for a one-character separator, over the
character list of the string. -/
def splitOnCharAux (sep : Char) : List Char → List Char → List (List Char)
  | [], acc => [acc.reverse]
  | c :: rest, acc =>
    if c = sep then acc.reverse :: splitOnCharAux sep rest []
    else splitOnCharAux sep rest (c :: acc)

/-- Model of Python str.split(sep) for a one-character separator. -/
def splitOnChar (sep : Char) (l : List Char) : List (List Char) :=
  splitOnCharAux sep l []

/-- Helper for pyIntOfChars: accumulate decimal digits. -/
def digitsToNatAux : List Char → Nat → Option Nat
  | [], acc => some acc
  | c :: rest, acc =>
    if c.isDigit then digitsToNatAux rest (acc * 10 + (c.toNat - 48))
    else none

/-- Model of the Python int() builtin on a header-value string: a non-empty
all-digit string parses to its value, anything else raises (none).  HTTP
sizes are non-negative, so signs are not modelled. -/
def pyIntOfChars (l : List Char) : Option Nat :=
  if l.isEmpty then none else digitsToNatAux l 0

/-- Python int(headers.get(k, 0)): an absent header yields int 0; a present
header parses as a non-negative integer or raises (modelled as none). -/
def intOfHeader : Option String → Option Nat
  | none => some 0
  | some s => pyIntOfChars s.data

/-- Step 1 of size discovery (lines 284-291): the HEAD request.  Returns the
pair (total_size, supports_range) after the try/except block.  A raised
exception anywhere in the block leaves both at their initial values; note
that supports_range is assigned after total_size in the source, so a parse
failure of content-length also leaves supports_range false. -/
def headStep : Option HeadResp → Nat × Bool
  | none => (0, false)
  | some r =>
    if r.status = 200 then
      match intOfHeader r.content_length with
      | none => (0, false)
      | some n => (n, r.accept_ranges == some "bytes")
    else (0, false)

/-- Step 2 of size discovery (lines 296-312): the GET request with header
Range: bytes=0-0, executed only when total_size is still 0.  The triple tri
holds (total_size, supports_range, raised) after the content-range block:
raised records that int(parts[1]) raised, in which case the outer except
catches it and the content-length fallback is skipped. -/
def getStep (g : Option GetResp) (total_size : Nat) (supports_range : Bool) :
    Nat × Bool :=
  match g with
  | none => (total_size, supports_range)
  | some r =>
    if r.status = 200 ∨ r.status = 206 then
      let content_range := r.content_range.getD ""
      let tri : Nat × Bool × Bool :=
        if content_range ≠ "" then
          let parts := splitOnChar '/' content_range.data
          if parts.length = 2 then
            match pyIntOfChars (parts.getD 1 []) with
            | none => (total_size, supports_range, true)
            | some n => (n, true, false)
          else (total_size, supports_range, false)
        else (total_size, supports_range, false)
      if tri.2.2 then (tri.1, tri.2.1)
      else if tri.1 = 0 then
        match intOfHeader r.content_length with
        | none => (tri.1, tri.2.1)
        | some m => (m, tri.2.1)
      else (tri.1, tri.2.1)
    else (total_size, supports_range)

/-- Size discovery as a whole (lines 280-315): HEAD first, then the ranged
GET if the size is still zero, then the fatal check at line 314. -/
def discover_size (hr : Option HeadResp) (gr : Option GetResp) :
    Except String (Nat × Bool) :=
  let p1 := headStep hr
  let p2 := if p1.1 = 0 then getStep gr p1.1 p1.2 else p1
  if p2.1 = 0 then Except.error "Could not determine file size from server"
  else Except.ok p2

/-- The transfer plan download_file would use for given probe outcomes:
discovery failure aborts the job before any data transfer (lines 314-315,
328, 351-354). -/
def downloadPlanOf (hr : Option HeadResp) (gr : Option GetResp) :
    Except String Plan :=
  (discover_size hr gr).map fun p => downloadPlan p.2 p.1

/-- Counterexample to claim C3 as stated: the HEAD probe fails, the ranged
GET answers 206 with content-range "bytes 0-0/*" (total unknown) and a
usable content-length of 500; the claim promises a fallback to that
content-length, but int("*") raises inside the try block, the fallback is
skipped, and the job fails with the size-unknown error instead. -/
theorem c3_size_discovery_counterexample :
    discover_size none
        (some { status := 206, content_range := some "bytes 0-0/*",
                content_length := some "500" }) =
      Except.error "Could not determine file size from server" ∧
    (splitOnChar '/' "bytes 0-0/*".data).length = 2 ∧
    pyIntOfChars "*".data = none ∧
    pyIntOfChars "500".data = some 500 := by
  refine ⟨by rfl, by decide, by decide, by decide⟩

/-- Counterexample to claim C4 as stated: a successful 206 response to the
bytes=0-0 probe that carries no content-range header leaves supports_range
false; the size is taken from content-length but range support is not
recorded. -/
theorem c4_supports_range_counterexample :
    discover_size none
        (some { status := 206, content_range := none,
                content_length := some "1000" }) =
      Except.ok (1000, false) := by
  rfl

/-- Helper: a two-part split is never the split of the empty header. -/
lemma split_ne_empty {r : GetResp} {a b : List Char}
    (hsplit : splitOnChar '/' (r.content_range.getD "").data = [a, b]) :
    r.content_range.getD "" ≠ "" := by
  intro hcr
  rw [hcr] at hsplit
  have hone : (splitOnChar '/' ("" : String).data).length = 1 := by decide
  rw [hsplit] at hone
  simp at hone

/-- Helper: HEAD success with a positive parsed content-length settles
discovery, ignoring the GET probe. -/
lemma discover_size_head_hit (gr : Option GetResp) (r : HeadResp) (n : Nat)
    (hst : r.status = 200) (hint : intOfHeader r.content_length = some n)
    (hn : 0 < n) :
    discover_size (some r) gr = Except.ok (n, r.accept_ranges == some "bytes") := by
  have hh : headStep (some r) = (n, r.accept_ranges == some "bytes") := by
    simp [headStep, hst, hint]
  have hn0 : ¬(n = 0) := by omega
  simp [discover_size, hh, hn0]

/-- Helper: with no size from HEAD, a well-formed content-range total wins
and records range support. -/
lemma discover_size_range_hit (hr : Option HeadResp) (r : GetResp)
    (a b : List Char) (n : Nat) (h0 : (headStep hr).1 = 0)
    (hst : r.status = 200 ∨ r.status = 206)
    (hsplit : splitOnChar '/' (r.content_range.getD "").data = [a, b])
    (hint : pyIntOfChars b = some n) (hn : 0 < n) :
    discover_size hr (some r) = Except.ok (n, true) := by
  have hcr := split_ne_empty hsplit
  have hn0 : ¬(n = 0) := by omega
  simp [discover_size, h0, getStep, hst, hcr, hsplit, hint, hn0]

/-- Helper: with no size from HEAD and no two-part content-range, the
content-length of the GET response is used and supports_range keeps the
value inherited from the HEAD step. -/
lemma discover_size_fallback (hr : Option HeadResp) (r : GetResp) (m : Nat)
    (h0 : (headStep hr).1 = 0) (hst : r.status = 200 ∨ r.status = 206)
    (hshape : r.content_range.getD "" = "" ∨
      (splitOnChar '/' (r.content_range.getD "").data).length ≠ 2)
    (hint : intOfHeader r.content_length = some m) (hm : 0 < m) :
    discover_size hr (some r) = Except.ok (m, (headStep hr).2) := by
  have hm0 : ¬(m = 0) := by omega
  rcases hshape with hcr | hlen
  · simp [discover_size, h0, getStep, hst, hcr, hint, hm0]
  · by_cases hcr : r.content_range.getD "" = ""
    · simp [discover_size, h0, getStep, hst, hcr, hint, hm0]
    · simp [discover_size, h0, getStep, hst, hcr, hlen, hint, hm0]

/-- Helper: a two-part content-range whose total does not parse as an
integer raises inside the try block, so the content-length fallback is
skipped and discovery fails. -/
lemma discover_size_abort (hr : Option HeadResp) (r : GetResp)
    (a b : List Char) (h0 : (headStep hr).1 = 0)
    (hst : r.status = 200 ∨ r.status = 206)
    (hsplit : splitOnChar '/' (r.content_range.getD "").data = [a, b])
    (hint : pyIntOfChars b = none) :
    discover_size hr (some r) =
      Except.error "Could not determine file size from server" := by
  have hcr := split_ne_empty hsplit
  simp [discover_size, h0, getStep, hst, hcr, hsplit, hint]

/-- Claim C3 as amended: size discovery tries HEAD first with first success
winning; if HEAD yields no usable length, the ranged GET prefers a
content-range header that splits into exactly two parts around a slash with
an integer total; the content-length fallback applies only when the
content-range header is absent or does not have that two-part shape, while a
two-part content-range whose total is not an integer aborts the probe (the
raised ValueError skips the fallback); if the size is still zero the job
fails with the size-unknown error and no transfer plan is produced. -/
theorem c3_size_discovery_amended (hr : Option HeadResp) (gr : Option GetResp) :
    (∀ r n, hr = some r → r.status = 200 →
      intOfHeader r.content_length = some n → 0 < n →
      discover_size hr gr = Except.ok (n, r.accept_ranges == some "bytes")) ∧
    ((headStep hr).1 = 0 → ∀ r a b n, gr = some r →
      (r.status = 200 ∨ r.status = 206) →
      splitOnChar '/' (r.content_range.getD "").data = [a, b] →
      pyIntOfChars b = some n → 0 < n →
      discover_size hr gr = Except.ok (n, true)) ∧
    ((headStep hr).1 = 0 → ∀ r m, gr = some r →
      (r.status = 200 ∨ r.status = 206) →
      (r.content_range.getD "" = "" ∨
        (splitOnChar '/' (r.content_range.getD "").data).length ≠ 2) →
      intOfHeader r.content_length = some m → 0 < m →
      discover_size hr gr = Except.ok (m, (headStep hr).2)) ∧
    ((headStep hr).1 = 0 → ∀ r a b, gr = some r →
      (r.status = 200 ∨ r.status = 206) →
      splitOnChar '/' (r.content_range.getD "").data = [a, b] →
      pyIntOfChars b = none →
      discover_size hr gr =
        Except.error "Could not determine file size from server") ∧
    (∀ msg, discover_size hr gr = Except.error msg →
      downloadPlanOf hr gr = Except.error msg) := by
  refine ⟨?_, ?_, ?_, ?_, ?_⟩
  · intro r n hhr hst hint hn
    subst hhr
    exact discover_size_head_hit gr r n hst hint hn
  · intro h0 r a b n hgr hst hsplit hint hn
    subst hgr
    exact discover_size_range_hit hr r a b n h0 hst hsplit hint hn
  · intro h0 r m hgr hst hshape hint hm
    subst hgr
    exact discover_size_fallback hr r m h0 hst hshape hint hm
  · intro h0 r a b hgr hst hsplit hint
    subst hgr
    exact discover_size_abort hr r a b h0 hst hsplit hint
  · intro msg herr
    simp [downloadPlanOf, herr, Except.map]

/-- Witness for C3 as amended: a HEAD answer 200 with content-length 42 and
accept-ranges bytes settles discovery without the GET probe. -/
theorem c3_size_discovery_amended_witness :
    discover_size
        (some { status := 200, content_length := some "42",
                accept_ranges := some "bytes" }) none =
      Except.ok (42, true) := by
  have h :=
    (c3_size_discovery_amended
        (some { status := 200, content_length := some "42",
                accept_ranges := some "bytes" }) none).1
      { status := 200, content_length := some "42",
        accept_ranges := some "bytes" } 42 rfl rfl (by decide) (by decide)
  simpa using h

/-- Claim C4 as amended: in step 2, supports_range is recorded true exactly
when the response (status 200 or 206) carries a content-range header that
splits into two parts around a slash with an integer total; a partial-content
response whose size is taken from the content-length fallback leaves
supports_range at the value inherited from step 1. -/
theorem c4_supports_range_amended (hr : Option HeadResp) (r : GetResp)
    (h0 : (headStep hr).1 = 0) (hst : r.status = 200 ∨ r.status = 206) :
    (∀ a b n, splitOnChar '/' (r.content_range.getD "").data = [a, b] →
      pyIntOfChars b = some n → 0 < n →
      discover_size hr (some r) = Except.ok (n, true)) ∧
    (r.content_range = none → ∀ m, intOfHeader r.content_length = some m →
      0 < m →
      discover_size hr (some r) = Except.ok (m, (headStep hr).2)) := by
  constructor
  · intro a b n hsplit hint hn
    exact discover_size_range_hit hr r a b n h0 hst hsplit hint hn
  · intro hnone m hint hm
    have hcr : r.content_range.getD "" = "" := by rw [hnone]; rfl
    exact discover_size_fallback hr r m h0 hst (Or.inl hcr) hint hm

/-- Witness for C4 as amended: failed HEAD, then GET answering 206 with
content-range bytes 0-0/500 records size 500 and supports_range true. -/
theorem c4_supports_range_amended_witness :
    discover_size none
        (some { status := 206, content_range := some "bytes 0-0/500",
                content_length := some "1" }) =
      Except.ok (500, true) :=
  (c4_supports_range_amended none
      { status := 206, content_range := some "bytes 0-0/500",
        content_length := some "1" } rfl (Or.inr rfl)).1
    "bytes 0-0".data "500".data 500 (by decide) (by decide) (by decide)

/-! ### Process-wide state: registry, control map, queue, files

The module-level dicts active_downloads (line 14) and download_control
(line 16) are modelled as association lists over download ids, the list
download_queue (line 18) as a list of queue items, and the filesystem as
the list of existing output paths.  Python dict assignment to an existing
key updates in place; assignment to a fresh key appends. -/

/-- One value of download_control[id] (lines 271-276; the asyncio lock is
not represented - updates under it are modelled as atomic). -/
structure Control where
  paused : Bool
  cancelled : Bool
  total_downloaded : Nat
deriving DecidableEq, Inhabited

/-- One value of active_downloads[id] (lines 155-163 and later updates).
Keys that Python adds later (downloaded, total, error) carry defaults. -/
structure Entry where
  url : String := ""
  filename : String := ""
  save_path : String := ""
  output_path : String := ""
  progress : ℚ := 0
  status : String := "queued"
  error : Option String := none
  downloaded : Nat := 0
  total : Nat := 0
deriving DecidableEq, Inhabited

/-- One element of download_queue (lines 166-170). -/
structure QItem where
  download_id : String
  url : String
  output_path : String
deriving DecidableEq

/-- The process-wide mutable state touched by cancel and finalization. -/
structure Sys where
  download_queue : List QItem
  download_control : List (String × Control)
  active_downloads : List (String × Entry)
  files : List String
deriving DecidableEq

/-- Dictionary lookup on an association list. -/
def lookupA {α : Type} : List (String × α) → String → Option α
  | [], _ => none
  | p :: t, k => if p.1 = k then some p.2 else lookupA t k

/-- In-place update of the value under an existing key. -/
def setA {α : Type} (l : List (String × α)) (k : String) (f : α → α) :
    List (String × α) :=
  l.map fun p => if p.1 = k then (p.1, f p.2) else p

/-- Python del d[k]: remove the binding for k. -/
def delA {α : Type} (l : List (String × α)) (k : String) : List (String × α) :=
  l.filter fun p => p.1 != k

/-- Python d[k] = v: update in place if present, else append. -/
def insertA {α : Type} (l : List (String × α)) (k : String) (v : α) :
    List (String × α) :=
  if (lookupA l k).isSome then setA l k fun _ => v else l ++ [(k, v)]

lemma lookupA_setA {α : Type} (l : List (String × α)) (k : String)
    (f : α → α) : lookupA (setA l k f) k = (lookupA l k).map f := by
  induction l with
  | nil => rfl
  | cons p t ih =>
    by_cases h : p.1 = k
    · simp [setA, lookupA, h]
    · have hs : setA (p :: t) k f = p :: setA t k f := by
        simp [setA, h]
      rw [hs]
      simp [lookupA, h, ih]

lemma lookupA_delA {α : Type} (l : List (String × α)) (k : String) :
    lookupA (delA l k) k = none := by
  induction l with
  | nil => rfl
  | cons p t ih =>
    by_cases h : p.1 = k
    · simpa [delA, h] using ih
    · simpa [delA, lookupA, h, bne_iff_ne] using ih

lemma filter_eq_self_of {α : Type} (l : List α) (p : α → Bool)
    (h : ∀ a ∈ l, p a = true) : l.filter p = l := by
  induction l with
  | nil => rfl
  | cons a t ih =>
    have ha := h a (by simp)
    simp only [List.filter, ha, List.cons.injEq, true_and]
    exact ih fun b hb => h b (by simp [hb])

lemma not_mem_filter_ne (l : List String) (a : String) :
    a ∉ l.filter fun p => p != a := by
  simp [List.mem_filter]

/-- The cancel endpoint cancel_download (lines 501-534): a falsy (missing or
empty) download_id is rejected with HTTP 400; otherwise matching queue
entries are struck, an active control gets its cancelled flag set, a
registry entry gets status cancelled, and the cancelled event is pushed. -/
def cancel_download (download_id? : Option String) (s : Sys) :
    Nat × Sys × List String :=
  let download_id := download_id?.getD ""
  if download_id = "" then (400, s, [])
  else
    let q1 := s.download_queue.filter fun d => d.download_id != download_id
    let s1 : Sys := { s with download_queue := q1 }
    let c2 := setA s1.download_control download_id
      fun c => { c with cancelled := true }
    let s2 : Sys :=
      if (lookupA s1.download_control download_id).isSome then
        { s1 with download_control := c2 }
      else s1
    let a3 := setA s2.active_downloads download_id
      fun e => { e with status := "cancelled" }
    let s3 : Sys :=
      if (lookupA s2.active_downloads download_id).isSome then
        { s2 with active_downloads := a3 }
      else s2
    (200, s3, ["server_download_cancelled"])

/-- The tail of download_file after the transfer body (lines 344-389):
if any gathered chunk result was an exception it is re-raised, landing in
the except block that records status error with a message, pushes the error
event and deletes the control entry; otherwise, if the cancelled flag is
set, the partial file is removed and the coroutine returns at line 359
without touching the registry entry, the events, or the control entry;
otherwise the entry is marked completed with progress 100, the completion
event is pushed and the control entry is deleted. -/
def finalize_download (download_id output_path : String) (any_error : Bool)
    (msg : String) (s : Sys) : Sys × List String :=
  if any_error = true then
    ({ s with
        active_downloads := setA s.active_downloads download_id fun e =>
          { e with status := "error", error := some msg },
        download_control := delA s.download_control download_id },
     ["server_download_error"])
  else if ((lookupA s.download_control download_id).getD default).cancelled = true then
    ({ s with files := s.files.filter fun p => p != output_path }, [])
  else
    ({ s with
        active_downloads := setA s.active_downloads download_id fun e =>
          { e with status := "completed", progress := 100 },
        download_control := delA s.download_control download_id },
     ["server_download_complete"])

/-- Counterexample to claim C10 as stated: a cancel request whose
download_id is the empty string appears in no queue entry, control record
or registry entry, yet the endpoint answers HTTP 400 with no cancelled
event, because the falsy-parameter check at line 510 fires first. -/
theorem c10_cancel_unknown_counterexample :
    cancel_download (some "")
        { download_queue := [], download_control := [],
          active_downloads := [], files := [] } =
      (400,
        { download_queue := [], download_control := [],
          active_downloads := [], files := [] }, []) := by
  rfl

/-- Claim C10 as amended: a cancel request with a non-empty download_id
appearing in no queue entry, no control record and no registry entry still
returns success, emits the cancelled event, and leaves the whole state
unchanged. -/
theorem c10_cancel_unknown_amended (s : Sys) (did : String) (hne : did ≠ "")
    (hq : ∀ d ∈ s.download_queue, d.download_id ≠ did)
    (hc : lookupA s.download_control did = none)
    (hr : lookupA s.active_downloads did = none) :
    cancel_download (some did) s = (200, s, ["server_download_cancelled"]) := by
  have hfil : (s.download_queue.filter fun d => d.download_id != did) =
      s.download_queue := by
    apply filter_eq_self_of
    intro d hd
    simp [bne_iff_ne, hq d hd]
  simp [cancel_download, hne, hfil, hc, hr]

/-- Witness for C10 as amended, with a concrete unrelated job in the state. -/
theorem c10_cancel_unknown_amended_witness :
    cancel_download (some "loras/b.safetensors")
        { download_queue := [⟨"checkpoints/a", "http://u", "/models/a"⟩],
          download_control := [("checkpoints/a", ⟨false, false, 0⟩)],
          active_downloads := [("checkpoints/a", {})],
          files := ["/models/a"] } =
      (200,
        { download_queue := [⟨"checkpoints/a", "http://u", "/models/a"⟩],
          download_control := [("checkpoints/a", ⟨false, false, 0⟩)],
          active_downloads := [("checkpoints/a", {})],
          files := ["/models/a"] },
        ["server_download_cancelled"]) :=
  c10_cancel_unknown_amended _ _ (by decide) (by decide) (by rfl) (by rfl)

/-- Counterexample to claim C6 as stated: a cancelled transfer returns at
line 359 without deleting download_control[download_id]; the TransferControl
for the job survives the terminal cancelled case. -/
theorem c6_control_release_counterexample :
    lookupA
        (finalize_download "checkpoints/a" "/models/a" false ""
            { download_queue := [],
              download_control := [("checkpoints/a", ⟨false, true, 0⟩)],
              active_downloads := [("checkpoints/a", {})],
              files := ["/models/a"] }).1.download_control
        "checkpoints/a" =
      some ⟨false, true, 0⟩ := by
  rfl

/-- Claim C6 as amended: in the completed and errored terminal cases the
per-job TransferControl is deleted before the transfer task finishes, but
in the cancelled terminal case the control entry is left behind in
download_control. -/
theorem c6_control_release_amended (s : Sys) (did path msg : String) :
    lookupA (finalize_download did path true msg s).1.download_control did =
      none ∧
    (((lookupA s.download_control did).getD default).cancelled = false →
      lookupA (finalize_download did path false msg s).1.download_control did =
        none) ∧
    (((lookupA s.download_control did).getD default).cancelled = true →
      (finalize_download did path false msg s).1.download_control =
        s.download_control) := by
  refine ⟨?_, ?_, ?_⟩
  · simp [finalize_download, lookupA_delA]
  · intro h
    simp [finalize_download, h, lookupA_delA]
  · intro h
    simp [finalize_download, h]

/-- Witness for C6 as amended at a concrete state (control present, not
cancelled): both the errored and the completed paths drop the control. -/
theorem c6_control_release_amended_witness :
    lookupA
        (finalize_download "checkpoints/a" "/models/a" true "boom"
            { download_queue := [],
              download_control := [("checkpoints/a", ⟨false, false, 0⟩)],
              active_downloads := [("checkpoints/a", {})],
              files := [] }).1.download_control "checkpoints/a" = none ∧
    lookupA
        (finalize_download "checkpoints/a" "/models/a" false "boom"
            { download_queue := [],
              download_control := [("checkpoints/a", ⟨false, false, 0⟩)],
              active_downloads := [("checkpoints/a", {})],
              files := [] }).1.download_control "checkpoints/a" = none :=
  ⟨(c6_control_release_amended
      { download_queue := [],
        download_control := [("checkpoints/a", ⟨false, false, 0⟩)],
        active_downloads := [("checkpoints/a", {})], files := [] }
      "checkpoints/a" "/models/a" "boom").1,
   (c6_control_release_amended
      { download_queue := [],
        download_control := [("checkpoints/a", ⟨false, false, 0⟩)],
        active_downloads := [("checkpoints/a", {})], files := [] }
      "checkpoints/a" "/models/a" "boom").2.1 rfl⟩

/-- Counterexample to claim C5 as stated: the cancelled flag is set (via
cancel_download) but one chunk fetch also failed; the re-raise at lines
347-349 runs before the cancelled check at line 357, so the registry entry
ends in status error with an error message recorded and the partial file is
left on disk. -/
theorem c5_cancel_outcome_counterexample :
    lookupA
        (finalize_download "checkpoints/a" "/models/a" true
            "HTTP 500 for chunk 3"
            (cancel_download (some "checkpoints/a")
                { download_queue := [],
                  download_control := [("checkpoints/a", ⟨false, false, 0⟩)],
                  active_downloads :=
                    [("checkpoints/a",
                      { output_path := "/models/a", status := "downloading",
                        total := 1000 })],
                  files := ["/models/a"] }).2.1).1.active_downloads
        "checkpoints/a" =
      some { output_path := "/models/a", status := "error",
             error := some "HTTP 500 for chunk 3", total := 1000 } ∧
    (finalize_download "checkpoints/a" "/models/a" true
        "HTTP 500 for chunk 3"
        (cancel_download (some "checkpoints/a")
            { download_queue := [],
              download_control := [("checkpoints/a", ⟨false, false, 0⟩)],
              active_downloads :=
                [("checkpoints/a",
                  { output_path := "/models/a", status := "downloading",
                    total := 1000 })],
              files := ["/models/a"] }).2.1).1.files = ["/models/a"] ∧
    "error" ≠ "cancelled" := by
  refine ⟨by rfl, by rfl, by decide⟩

/-- Claim C5 as amended: for a job whose cancelled flag is set through the
cancel endpoint after preallocation, and whose chunk fetches all return
without raising, finalization deletes the partial output file, leaves the
registry entry in status cancelled (set by the cancel endpoint, not error)
with no error message, and pushes no further event from the transfer task;
if some chunk also raised, the error path wins instead. -/
theorem c5_cancel_outcome_amended (s : Sys) (did path : String)
    (e : Entry) (c : Control) (hne : did ≠ "")
    (hreg : lookupA s.active_downloads did = some e)
    (hctl : lookupA s.download_control did = some c)
    (herr : e.error = none) :
    path ∉ (finalize_download did path false ""
        (cancel_download (some did) s).2.1).1.files ∧
    lookupA (finalize_download did path false ""
        (cancel_download (some did) s).2.1).1.active_downloads did =
      some { e with status := "cancelled" } ∧
    ({ e with status := "cancelled" } : Entry).error = none ∧
    (finalize_download did path false ""
        (cancel_download (some did) s).2.1).2 = [] := by
  have hctl1 : lookupA (cancel_download (some did) s).2.1.download_control did =
      some { c with cancelled := true } := by
    simp [cancel_download, hne, hctl, hreg, lookupA_setA]
  have hreg1 : lookupA (cancel_download (some did) s).2.1.active_downloads did =
      some { e with status := "cancelled" } := by
    simp [cancel_download, hne, hctl, hreg, lookupA_setA]
  have hcanc : ((lookupA (cancel_download (some did) s).2.1.download_control
      did).getD default).cancelled = true := by
    rw [hctl1]
    rfl
  refine ⟨?_, ?_, ?_, ?_⟩
  · simp only [finalize_download, Bool.false_eq_true, if_false, hcanc,
      if_true, reduceIte]
    exact not_mem_filter_ne _ _
  · simp only [finalize_download, Bool.false_eq_true, if_false, hcanc,
      if_true, reduceIte]
    exact hreg1
  · rw [herr]
  · simp only [finalize_download, Bool.false_eq_true, if_false, hcanc,
      if_true, reduceIte]

/-- Witness for C5 as amended at a concrete cancelled job. -/
theorem c5_cancel_outcome_amended_witness :
    "/models/a" ∉ (finalize_download "checkpoints/a" "/models/a" false ""
        (cancel_download (some "checkpoints/a")
            { download_queue := [],
              download_control := [("checkpoints/a", ⟨false, false, 7⟩)],
              active_downloads :=
                [("checkpoints/a",
                  { output_path := "/models/a", status := "downloading",
                    total := 1000 })],
              files := ["/models/a"] }).2.1).1.files ∧
    lookupA (finalize_download "checkpoints/a" "/models/a" false ""
        (cancel_download (some "checkpoints/a")
            { download_queue := [],
              download_control := [("checkpoints/a", ⟨false, false, 7⟩)],
              active_downloads :=
                [("checkpoints/a",
                  { output_path := "/models/a", status := "downloading",
                    total := 1000 })],
              files := ["/models/a"] }).2.1).1.active_downloads
        "checkpoints/a" =
      some { output_path := "/models/a", status := "cancelled",
             total := 1000 } ∧
    ({ output_path := "/models/a", status := "cancelled",
       total := 1000 } : Entry).error = none ∧
    (finalize_download "checkpoints/a" "/models/a" false ""
        (cancel_download (some "checkpoints/a")
            { download_queue := [],
              download_control := [("checkpoints/a", ⟨false, false, 7⟩)],
              active_downloads :=
                [("checkpoints/a",
                  { output_path := "/models/a", status := "downloading",
                    total := 1000 })],
              files := ["/models/a"] }).2.1).2 = [] :=
  c5_cancel_outcome_amended
    { download_queue := [],
      download_control := [("checkpoints/a", ⟨false, false, 7⟩)],
      active_downloads :=
        [("checkpoints/a",
          { output_path := "/models/a", status := "downloading",
            total := 1000 })],
      files := ["/models/a"] }
    "checkpoints/a" "/models/a"
    { output_path := "/models/a", status := "downloading", total := 1000 }
    ⟨false, false, 7⟩ (by decide) (by rfl) (by rfl) (by rfl)

/-! ### The queue-advance race (process_download_queue, lines 189-238)

process_download_queue runs on the asyncio event loop.  Between its guard
(line 194: return if current_download_task is set and not done) and the
assignment of current_download_task (line 224) it awaits
PromptServer.instance.send (line 216), a genuine suspension point.  The
function is therefore modelled as two atomic segments; an interleaving of
two concurrent invocations is a list of labels saying which invocation runs
its next segment.  Tasks spawned during the modelled window do not complete
in it, so a set current_download_task is never done. -/

/-- Program counter of one process_download_queue invocation: before the
guard, suspended at the await after popping item, or returned. -/
inductive PdqPc where
  | start
  | after_send (item : QItem)
  | finished
deriving DecidableEq

/-- State touched by process_download_queue: the queue, the single task
slot, the registry, the list of download ids whose download_file task has
been spawned, and the two invocation counters. -/
structure QueueState where
  download_queue : List QItem
  current_download_task : Option Nat
  active_downloads : List (String × Entry)
  spawned : List String
  a_pc : PdqPc
  b_pc : PdqPc
deriving DecidableEq

/-- One atomic segment of process_download_queue.  Segment one: lines
194-221 (guard, pop, mark downloading, reach the await).  Segment two:
lines 224-227 (create the download_file task, filling the slot). -/
def pdq_segment (pc : PdqPc) (s : QueueState) : PdqPc × QueueState :=
  match pc with
  | PdqPc.start =>
    match s.current_download_task with
    | some _ => (PdqPc.finished, s)
    | none =>
      match s.download_queue with
      | [] => (PdqPc.finished, s)
      | item :: rest =>
        let a1 := setA s.active_downloads item.download_id
          fun e => { e with status := "downloading", progress := 0,
                            downloaded := 0 }
        (PdqPc.after_send item,
         { s with download_queue := rest, active_downloads := a1 })
  | PdqPc.after_send item =>
    (PdqPc.finished,
     { s with current_download_task := some s.spawned.length,
              spawned := s.spawned ++ [item.download_id] })
  | PdqPc.finished => (PdqPc.finished, s)

/-- Run a schedule: true runs the next segment of invocation A, false of
invocation B. -/
def pdq_run (labels : List Bool) (s : QueueState) : QueueState :=
  labels.foldl
    (fun st lab =>
      if lab then
        let r := pdq_segment st.a_pc st
        { r.2 with a_pc := r.1 }
      else
        let r := pdq_segment st.b_pc st
        { r.2 with b_pc := r.1 })
    s

/-- Number of registry entries currently in status downloading. -/
def downloadingCount (l : List (String × Entry)) : Nat :=
  (l.filter fun p => p.2.status == "downloading").length

/-- Claim C2, failing execution: with two queued jobs and two concurrent
process_download_queue invocations both scheduled past the guard before
either resumes from the await (schedule A-seg1, B-seg1, A-seg2, B-seg2),
both jobs end up in status downloading and two download_file tasks are
spawned: the single-transfer invariant is violated and a transfer is
double-started. -/
theorem c2_queue_double_start :
    downloadingCount
        (pdq_run [true, false, true, false]
            { download_queue :=
                [⟨"checkpoints/a", "http://a", "/models/a"⟩,
                 ⟨"checkpoints/b", "http://b", "/models/b"⟩],
              current_download_task := none,
              active_downloads :=
                [("checkpoints/a", { status := "queued" }),
                 ("checkpoints/b", { status := "queued" })],
              spawned := [], a_pc := PdqPc.start,
              b_pc := PdqPc.start }).active_downloads = 2 ∧
    (pdq_run [true, false, true, false]
        { download_queue :=
            [⟨"checkpoints/a", "http://a", "/models/a"⟩,
             ⟨"checkpoints/b", "http://b", "/models/b"⟩],
          current_download_task := none,
          active_downloads :=
            [("checkpoints/a", { status := "queued" }),
             ("checkpoints/b", { status := "queued" })],
          spawned := [], a_pc := PdqPc.start,
          b_pc := PdqPc.start }).spawned =
      ["checkpoints/a", "checkpoints/b"] := by
  refine ⟨by rfl, by rfl⟩

/-! ### Progress accounting and event emission
(download_chunk_with_progress lines 392-444, download_single_connection
lines 447-478)

Byte increments delivered by the network are modelled as a list of records
(consuming chunk index, arrival time in seconds as an exact rational,
length); the loops fold over them.  Python round(x, 2) is modelled on exact
rationals with ties to even.  Pause and cancellation are not exercised here:
an increment in the list is one that the loop actually consumed. -/

/-- Python round to the nearest integer, ties to even, on exact rationals. -/
def round_half_even (x : ℚ) : ℤ :=
  if x - (⌊x⌋ : ℚ) < 1 / 2 then ⌊x⌋
  else if 1 / 2 < x - (⌊x⌋ : ℚ) then ⌊x⌋ + 1
  else if ⌊x⌋ % 2 = 0 then ⌊x⌋ else ⌊x⌋ + 1

/-- Python round(x, 2) on exact rationals. -/
def round2 (x : ℚ) : ℚ := (round_half_even (x * 100) : ℚ) / 100

lemma round_half_even_ge (x : ℚ) : ⌊x⌋ ≤ round_half_even x := by
  unfold round_half_even
  split_ifs <;> omega

lemma round_half_even_le (x : ℚ) : round_half_even x ≤ ⌊x⌋ + 1 := by
  unfold round_half_even
  split_ifs <;> omega

lemma round_half_even_mono {x y : ℚ} (h : x ≤ y) :
    round_half_even x ≤ round_half_even y := by
  rcases lt_or_eq_of_le (Int.floor_mono h : ⌊x⌋ ≤ ⌊y⌋) with hf | hf
  · calc round_half_even x ≤ ⌊x⌋ + 1 := round_half_even_le x
      _ ≤ ⌊y⌋ := by omega
      _ ≤ round_half_even y := round_half_even_ge y
  · have hxy : x - (⌊x⌋ : ℚ) ≤ y - (⌊x⌋ : ℚ) := by linarith
    unfold round_half_even
    rw [← hf]
    split_ifs <;> first | omega | linarith

lemma round_half_even_intCast (n : ℤ) : round_half_even (n : ℚ) = n := by
  norm_num [round_half_even, Int.floor_intCast]

lemma round2_mono {x y : ℚ} (h : x ≤ y) : round2 x ≤ round2 y := by
  unfold round2
  have h1 := round_half_even_mono (by linarith : x * 100 ≤ y * 100)
  have h2 : ((round_half_even (x * 100) : ℤ) : ℚ) ≤
      ((round_half_even (y * 100) : ℤ) : ℚ) := by exact_mod_cast h1
  linarith

lemma round2_le_100 {x : ℚ} (h : x ≤ 100) : round2 x ≤ 100 := by
  unfold round2
  have h1 := round_half_even_mono (by push_cast; linarith : x * 100 ≤ ((10000 : ℤ) : ℚ))
  rw [round_half_even_intCast] at h1
  have h2 : ((round_half_even (x * 100) : ℤ) : ℚ) ≤ 10000 := by exact_mod_cast h1
  linarith

lemma round2_zero : round2 0 = 0 := by
  norm_num [round2, round_half_even]

/-- One byte increment consumed by a transfer loop: the chunk task that
consumed it, the time.time() value at consumption, and len(chunk). -/
structure Inc where
  chunk_index : Nat
  time : ℚ
  len : Nat
deriving DecidableEq

/-- One pushed server_download_progress event: emitting source (chunk
index), emission time, and the payload progress and downloaded values. -/
structure Ev where
  source : Nat
  time : ℚ
  progress : ℚ
  downloaded : Nat
deriving DecidableEq

/-- Registry entry at transfer start: process_download_queue lines 209-211
set status downloading, progress 0, downloaded 0, and download_file lines
324-325 record the total. -/
def entryAtStart (total_size : Nat) (e : Entry) : Entry :=
  { e with status := "downloading", progress := 0, downloaded := 0,
           total := total_size }

/-- State of the multi-connection transfer visible to progress reporting:
the shared counter download_control[id].total_downloaded, the reporting
chunk's local last_report_time, the registry entry, and the pushed events. -/
structure MSt where
  total_downloaded : Nat
  last_report_time : ℚ
  entry : Entry
  events : List Ev
deriving DecidableEq

/-- One iteration of the byte loop in download_chunk_with_progress (lines
407-440): add the increment to the shared counter under the lock; then,
only for chunk index 0 and only when at least 0.1 s passed since the last
report, recompute progress, update the registry entry and push an event.
Chunks other than 0 never read their local last_report_time. -/
def chunk_progress_step (total_size : Nat) (s : MSt) (e : Inc) : MSt :=
  let total_downloaded := s.total_downloaded + e.len
  if e.chunk_index = 0 ∧ 1 / 10 ≤ e.time - s.last_report_time then
    let progress := round2 ((total_downloaded : ℚ) / (total_size : ℚ) * 100)
    { total_downloaded := total_downloaded,
      last_report_time := e.time,
      entry := { s.entry with progress := progress,
                              downloaded := total_downloaded },
      events := s.events ++ [⟨e.chunk_index, e.time, progress, total_downloaded⟩] }
  else
    { s with total_downloaded := total_downloaded }

/-- The multi-connection transfer loops folded over the consumed
increments, from the state set up by the coordinator. -/
def multi_connection_run (total_size : Nat) (entry0 : Entry)
    (incs : List Inc) : MSt :=
  incs.foldl (chunk_progress_step total_size)
    { total_downloaded := 0, last_report_time := 0,
      entry := entryAtStart total_size entry0, events := [] }

/-- State of the single-connection fallback loop. -/
structure SSt where
  downloaded_size : Nat
  entry : Entry
  events : List Ev
deriving DecidableEq

/-- One iteration of the byte loop in download_single_connection (lines
456-478): every consumed increment updates the registry entry and pushes a
progress event; there is no time check. -/
def single_connection_step (total_size : Nat) (s : SSt) (e : Inc) : SSt :=
  let downloaded_size := s.downloaded_size + e.len
  let progress := round2 ((downloaded_size : ℚ) / (total_size : ℚ) * 100)
  { downloaded_size := downloaded_size,
    entry := { s.entry with progress := progress,
                            downloaded := downloaded_size },
    events := s.events ++ [⟨0, e.time, progress, downloaded_size⟩] }

/-- The single-connection loop folded over the consumed increments. -/
def single_connection_run (total_size : Nat) (entry0 : Entry)
    (incs : List Inc) : SSt :=
  incs.foldl (single_connection_step total_size)
    { downloaded_size := 0, entry := entryAtStart total_size entry0,
      events := [] }

/-- Consecutive events are at least 0.1 s apart. -/
def chainB : List Ev → Bool
  | [] => true
  | [_] => true
  | a :: b :: r => decide (a.time + 1 / 10 ≤ b.time) && chainB (b :: r)

lemma chainB_append : ∀ (l : List Ev) (x : Ev), chainB l = true →
    (∀ ev ∈ l, ev.time + 1 / 10 ≤ x.time) → chainB (l ++ [x]) = true := by
  intro l x
  induction l with
  | nil =>
    intro _ _
    rfl
  | cons a t ih =>
    intro hc hall
    cases t with
    | nil =>
      have ha := hall a (by simp)
      simp only [List.cons_append, List.nil_append, chainB, Bool.and_eq_true,
        decide_eq_true_eq]
      exact ⟨ha, trivial⟩
    | cons b r =>
      have hc2 : (a.time + 1 / 10 ≤ b.time) ∧ chainB (b :: r) = true := by
        simp only [chainB, Bool.and_eq_true, decide_eq_true_eq] at hc
        exact hc
      have hr := ih hc2.2 fun ev hev => hall ev (by simp [hev])
      simp only [List.cons_append] at hr ⊢
      simp only [chainB, Bool.and_eq_true, decide_eq_true_eq]
      exact ⟨hc2.1, hr⟩

/-- Invariant of the multi-connection loop relevant to emission: every
pushed event came from chunk 0, consecutive events are at least 0.1 s
apart, and no pushed event is later than the last report time. -/
def EmitInv (s : MSt) : Prop :=
  (∀ ev ∈ s.events, ev.source = 0) ∧ chainB s.events = true ∧
  (∀ ev ∈ s.events, ev.time ≤ s.last_report_time)

lemma emitInv_step (t : Nat) (s : MSt) (e : Inc) (h : EmitInv s) :
    EmitInv (chunk_progress_step t s e) := by
  obtain ⟨h0, hchain, htime⟩ := h
  unfold chunk_progress_step
  by_cases hcond : e.chunk_index = 0 ∧ 1 / 10 ≤ e.time - s.last_report_time
  · rw [if_pos hcond]
    refine ⟨?_, ?_, ?_⟩
    · intro ev hev
      simp only [List.mem_append, List.mem_singleton] at hev
      rcases hev with hev | hev
      · exact h0 ev hev
      · rw [hev]
        exact hcond.1
    · apply chainB_append _ _ hchain
      intro ev hev
      have h1 := htime ev hev
      have h2 := hcond.2
      simp only []
      linarith
    · intro ev hev
      simp only [List.mem_append, List.mem_singleton] at hev
      rcases hev with hev | hev
      · have h1 := htime ev hev
        have h2 := hcond.2
        simp only []
        linarith
      · rw [hev]
  · rw [if_neg hcond]
    exact ⟨h0, hchain, htime⟩

lemma emitInv_run (t : Nat) : ∀ (incs : List Inc) (s : MSt), EmitInv s →
    EmitInv (incs.foldl (chunk_progress_step t) s) := by
  intro incs
  induction incs with
  | nil =>
    intro s h
    simpa using h
  | cons e rest ih =>
    intro s h
    simpa using ih _ (emitInv_step t s e h)

lemma single_run_events_len (t : Nat) : ∀ (incs : List Inc) (s : SSt),
    ((incs.foldl (single_connection_step t) s).events).length =
      s.events.length + incs.length := by
  intro incs
  induction incs with
  | nil =>
    intro s
    simp
  | cons e rest ih =>
    intro s
    have hstep : ((single_connection_step t s e).events).length =
        s.events.length + 1 := by
      simp [single_connection_step]
    simp only [List.foldl_cons, ih, hstep, List.length_cons]
    omega

/-- Counterexample to claim C7 as stated: in single-connection mode two
increments consumed 0.01 s apart each push a progress event; the events are
not 0.1 s apart, so emission is not rate-limited to one event per 100 ms
window in that mode. -/
theorem c7_rate_limit_counterexample :
    (single_connection_run 1000 {} [⟨0, 0, 1⟩, ⟨0, 1 / 100, 1⟩]).events.length = 2 ∧
    chainB (single_connection_run 1000 {} [⟨0, 0, 1⟩, ⟨0, 1 / 100, 1⟩]).events =
      false := by
  refine ⟨by rfl, ?_⟩
  norm_num [single_connection_run, single_connection_step, entryAtStart, chainB]

/-- Claim C7 as amended: in multi-connection mode every progress event is
emitted by chunk index 0 and consecutive events are at least 100 ms apart;
in single-connection mode the sole stream emits one event per consumed
increment with no rate limit; the completion event is pushed exactly once
from finalization (success path), outside any rate limit. -/
theorem c7_progress_emission_amended :
    (∀ (t : Nat) (e0 : Entry) (incs : List Inc),
      ∀ ev ∈ (multi_connection_run t e0 incs).events, ev.source = 0) ∧
    (∀ (t : Nat) (e0 : Entry) (incs : List Inc),
      chainB (multi_connection_run t e0 incs).events = true) ∧
    (∀ (t : Nat) (e0 : Entry) (incs : List Inc),
      (single_connection_run t e0 incs).events.length = incs.length) ∧
    (∀ (s : Sys) (did path : String),
      ((lookupA s.download_control did).getD default).cancelled = false →
      (finalize_download did path false "" s).2 =
        ["server_download_complete"]) := by
  have hinit : ∀ (t : Nat) (e0 : Entry),
      EmitInv { total_downloaded := 0, last_report_time := 0,
                entry := entryAtStart t e0, events := [] } := by
    intro t e0
    exact ⟨by simp, rfl, by simp⟩
  refine ⟨?_, ?_, ?_, ?_⟩
  · intro t e0 incs
    exact (emitInv_run t incs _ (hinit t e0)).1
  · intro t e0 incs
    exact (emitInv_run t incs _ (hinit t e0)).2.1
  · intro t e0 incs
    simpa using single_run_events_len t incs
      { downloaded_size := 0, entry := entryAtStart t e0, events := [] }
  · intro s did path h
    simp [finalize_download, h]

/-- Witness for C7 as amended at concrete inputs: one increment in single
mode yields one event, and the success finalization pushes exactly the
completion event. -/
theorem c7_progress_emission_amended_witness :
    (single_connection_run 10 {} [⟨0, 1, 5⟩]).events.length = 1 ∧
    (finalize_download "checkpoints/a" "/models/a" false ""
        { download_queue := [],
          download_control := [("checkpoints/a", ⟨false, false, 10⟩)],
          active_downloads := [("checkpoints/a", {})],
          files := ["/models/a"] }).2 = ["server_download_complete"] :=
  ⟨by simpa using c7_progress_emission_amended.2.2.1 10 {} [⟨0, 1, 5⟩],
   c7_progress_emission_amended.2.2.2
     { download_queue := [],
       download_control := [("checkpoints/a", ⟨false, false, 10⟩)],
       active_downloads := [("checkpoints/a", {})],
       files := ["/models/a"] } "checkpoints/a" "/models/a" rfl⟩

/-- Invariant of the multi-connection loop relevant to progress: the
registry entry records no more bytes than the shared counter, and its
progress field is exactly round2 of its recorded downloaded fraction. -/
def ProgInv (t : Nat) (s : MSt) : Prop :=
  s.entry.downloaded ≤ s.total_downloaded ∧
  s.entry.progress = round2 ((s.entry.downloaded : ℚ) / (t : ℚ) * 100)

lemma progInv_step (t : Nat) (ht : 0 < t) (s : MSt) (e : Inc)
    (h : ProgInv t s) :
    ProgInv t (chunk_progress_step t s e) ∧
    s.entry.progress ≤ (chunk_progress_step t s e).entry.progress := by
  obtain ⟨hd, hp⟩ := h
  have ht' : (0 : ℚ) < (t : ℚ) := by exact_mod_cast ht
  unfold chunk_progress_step
  by_cases hcond : e.chunk_index = 0 ∧ 1 / 10 ≤ e.time - s.last_report_time
  · rw [if_pos hcond]
    refine ⟨⟨le_refl _, rfl⟩, ?_⟩
    rw [hp]
    apply round2_mono
    have hdd : (s.entry.downloaded : ℚ) ≤ ((s.total_downloaded + e.len : Nat) : ℚ) := by
      exact_mod_cast le_trans hd (Nat.le_add_right _ _)
    have hdiv : (s.entry.downloaded : ℚ) / (t : ℚ) ≤
        ((s.total_downloaded + e.len : Nat) : ℚ) / (t : ℚ) :=
      div_le_div_of_nonneg_right hdd ht'.le
    linarith
  · rw [if_neg hcond]
    exact ⟨⟨le_trans hd (Nat.le_add_right _ _), hp⟩, le_refl _⟩

lemma progInv_run (t : Nat) (ht : 0 < t) : ∀ (incs : List Inc) (s : MSt),
    ProgInv t s →
    ProgInv t (incs.foldl (chunk_progress_step t) s) ∧
    s.entry.progress ≤
      (incs.foldl (chunk_progress_step t) s).entry.progress := by
  intro incs
  induction incs with
  | nil =>
    intro s h
    exact ⟨by simpa using h, by simp⟩
  | cons e rest ih =>
    intro s h
    have hstep := progInv_step t ht s e h
    have hrest := ih _ hstep.1
    refine ⟨by simpa using hrest.1, ?_⟩
    calc s.entry.progress ≤ (chunk_progress_step t s e).entry.progress :=
        hstep.2
      _ ≤ _ := by simpa using hrest.2

lemma chunk_step_total (t : Nat) (s : MSt) (e : Inc) :
    (chunk_progress_step t s e).total_downloaded =
      s.total_downloaded + e.len := by
  unfold chunk_progress_step
  split_ifs <;> rfl

lemma run_total_downloaded (t : Nat) : ∀ (incs : List Inc) (s : MSt),
    (incs.foldl (chunk_progress_step t) s).total_downloaded =
      s.total_downloaded + (incs.map Inc.len).sum := by
  intro incs
  induction incs with
  | nil =>
    intro s
    simp
  | cons e rest ih =>
    intro s
    simp only [List.foldl_cons, ih, chunk_step_total, List.map_cons,
      List.sum_cons]
    omega

/-- Counterexample to claim C8 as stated: after one consumed increment of
one byte out of 1000, the registry entry holds progress 0.1 with downloaded
1; success finalization then forces progress to 100 while leaving the
recorded downloaded at 1, so at the terminal point the recorded progress is
100 while round(downloaded/total*100, 2) is 0.1. -/
theorem c8_progress_counterexample :
    (multi_connection_run 1000 {} [⟨0, 1, 1⟩]).entry =
      { status := "downloading", progress := 1 / 10, downloaded := 1,
        total := 1000 } ∧
    lookupA (finalize_download "checkpoints/a" "/models/a" false ""
        { download_queue := [],
          download_control := [("checkpoints/a", ⟨false, false, 1⟩)],
          active_downloads :=
            [("checkpoints/a",
              { status := "downloading", progress := 1 / 10, downloaded := 1,
                total := 1000 })],
          files := ["/models/a"] }).1.active_downloads "checkpoints/a" =
      some { status := "completed", progress := 100, downloaded := 1,
             total := 1000 } ∧
    round2 ((1 : ℚ) / 1000 * 100) = 1 / 10 ∧
    (100 : ℚ) ≠ 1 / 10 := by
  refine ⟨?_, by rfl, ?_, by norm_num⟩
  · simp only [multi_connection_run, List.foldl_cons, List.foldl_nil,
      chunk_progress_step, entryAtStart]
    norm_num [round2, round_half_even]
  · norm_num [round2, round_half_even]

/-- Claim C8 as amended: throughout the transfer loop (modelled at the
granularity of consumed increments, with the server delivering at most
total_size bytes in total), the registry entry satisfies downloaded less
or equal the shared counter which stays at most total, its progress always
equals round(downloaded/total*100, 2) with ties to even, progress never
exceeds 100, and progress is monotonically non-decreasing along the run;
at the terminal completed state progress is forced to 100, which breaks the
round-trip equality but not monotonicity. -/
theorem c8_progress_invariant_amended (t : Nat) (ht : 0 < t) (e0 : Entry)
    (incs : List Inc) (hserver : (incs.map Inc.len).sum ≤ t) :
    (multi_connection_run t e0 incs).entry.downloaded ≤
      (multi_connection_run t e0 incs).total_downloaded ∧
    (multi_connection_run t e0 incs).total_downloaded ≤ t ∧
    (multi_connection_run t e0 incs).entry.progress =
      round2 (((multi_connection_run t e0 incs).entry.downloaded : ℚ) /
        (t : ℚ) * 100) ∧
    (multi_connection_run t e0 incs).entry.progress ≤ 100 ∧
    (∀ l1 l2, incs = l1 ++ l2 →
      (multi_connection_run t e0 l1).entry.progress ≤
        (multi_connection_run t e0 incs).entry.progress) := by
  have hinit : ProgInv t
      { total_downloaded := 0, last_report_time := 0,
        entry := entryAtStart t e0, events := [] } := by
    constructor
    · simp [entryAtStart]
    · simp [entryAtStart, round2_zero]
  have hmain : ProgInv t (multi_connection_run t e0 incs) ∧
      (entryAtStart t e0).progress ≤
        (multi_connection_run t e0 incs).entry.progress :=
    progInv_run t ht incs _ hinit
  have htot : (multi_connection_run t e0 incs).total_downloaded =
      (incs.map Inc.len).sum := by
    have h := run_total_downloaded t incs
      { total_downloaded := 0, last_report_time := 0,
        entry := entryAtStart t e0, events := [] }
    simpa [multi_connection_run] using h
  refine ⟨hmain.1.1, ?_, hmain.1.2, ?_, ?_⟩
  · rw [htot]
    exact hserver
  · rw [hmain.1.2]
    apply round2_le_100
    have hd_le_t : (multi_connection_run t e0 incs).entry.downloaded ≤ t := by
      refine le_trans hmain.1.1 ?_
      rw [htot]
      exact hserver
    have ht' : (0 : ℚ) < (t : ℚ) := by exact_mod_cast ht
    have hc : ((multi_connection_run t e0 incs).entry.downloaded : ℚ) ≤
        (t : ℚ) := by exact_mod_cast hd_le_t
    have hdiv : ((multi_connection_run t e0 incs).entry.downloaded : ℚ) /
        (t : ℚ) ≤ 1 := by
      rw [div_le_one ht']
      exact hc
    linarith
  · intro l1 l2 hsplit
    subst hsplit
    have hinv1 : ProgInv t (multi_connection_run t e0 l1) :=
      (progInv_run t ht l1 _ hinit).1
    have h3 : (multi_connection_run t e0 l1).entry.progress ≤
        (l2.foldl (chunk_progress_step t)
          (multi_connection_run t e0 l1)).entry.progress :=
      (progInv_run t ht l2 _ hinv1).2
    have hfold : multi_connection_run t e0 (l1 ++ l2) =
        l2.foldl (chunk_progress_step t) (multi_connection_run t e0 l1) := by
      simp [multi_connection_run, List.foldl_append]
    rw [hfold]
    exact h3

/-- Witness for C8 as amended at a concrete run: one increment of one byte
out of 1000. -/
theorem c8_progress_invariant_amended_witness :
    (multi_connection_run 1000 {} [⟨0, 1, 1⟩]).entry.downloaded ≤
      (multi_connection_run 1000 {} [⟨0, 1, 1⟩]).total_downloaded ∧
    (multi_connection_run 1000 {} [⟨0, 1, 1⟩]).total_downloaded ≤ 1000 ∧
    (multi_connection_run 1000 {} [⟨0, 1, 1⟩]).entry.progress =
      round2 (((multi_connection_run 1000 {} [⟨0, 1, 1⟩]).entry.downloaded : ℚ) /
        (1000 : ℚ) * 100) ∧
    (multi_connection_run 1000 {} [⟨0, 1, 1⟩]).entry.progress ≤ 100 ∧
    (∀ l1 l2, [(⟨0, 1, 1⟩ : Inc)] = l1 ++ l2 →
      (multi_connection_run 1000 {} l1).entry.progress ≤
        (multi_connection_run 1000 {} [⟨0, 1, 1⟩]).entry.progress) := by
  have h := c8_progress_invariant_amended 1000 (by norm_num) {} [⟨0, 1, 1⟩]
    (by norm_num)
  simpa using h

/-! ### Request admission (start_download, lines 54-186)

The host collaborators (folder_paths and the os.path functions) are
modelled as an environment of opaque functions; the HTTP response is
modelled as a status code and a tag naming the JSON body; side effects
outside the registry and the queue are collected as a list of IO action
descriptions, in execution order. -/

/-- Model of the Python substring test (pat in s), over character lists. -/
def isSubChain (pat : List Char) : List Char → Bool
  | [] => pat.isEmpty
  | l@(_ :: rest) => pat.isPrefixOf l || isSubChain pat rest

/-- Python pat in s on strings. -/
def pyIn (pat s : String) : Bool := isSubChain pat.data s.data

/-- Python s.startswith(pre). -/
def pyStartsWith (s pre : String) : Bool := pre.data.isPrefixOf s.data

/-- A parsed StartDownload request body: absent JSON keys are none, and
override defaults to False (line 62). -/
structure StartReq where
  url : Option String
  save_path : Option String
  filename : Option String
  override : Bool
deriving DecidableEq

/-- External collaborators of start_download: folder_paths.map_legacy,
folder_paths.folder_names_and_paths (returning the paths component),
os.path.normpath, os.path.abspath, os.path.join and os.path.exists. -/
structure Env where
  map_legacy : String → String
  folder_names_and_paths : String → Option (List String)
  normpath : String → String
  abspath : String → String
  joinPath : String → String → String
  path_exists : String → Bool

/-- start_download (lines 54-186): parameter presence check, backslash
check, traversal-pattern check, normalized-path re-check, save_path
resolution through folder_paths, model-directory filtering, escape check,
override conflict handling, then directory creation, registry admission,
queue append and the queue-processing task.  Removal of an existing file
under override is modelled as succeeding (its failure path only yields an
early 500 with no further effects). -/
def start_download (env : Env) (req : StartReq) (s : Sys) :
    (Nat × String) × Sys × List String :=
  let url := req.url.getD ""
  let save_path := req.save_path.getD ""
  let filename := req.filename.getD ""
  if url = "" ∨ save_path = "" ∨ filename = "" then
    ((400, "Missing required parameters: url, save_path, filename"), s, [])
  else if pyIn "\\" filename then
    ((400, "Invalid filename: backslashes not allowed"), s, [])
  else if pyIn ".." filename ∨ pyStartsWith filename "/" ∨
      pyStartsWith filename "~" then
    ((400, "Invalid filename: path traversal patterns detected"), s, [])
  else
    let safe_filename := (env.normpath filename).replace "\\" "/"
    if pyStartsWith safe_filename "/" ∨ pyStartsWith safe_filename "../" ∨
        pyIn "/../" safe_filename then
      ((400, "Invalid filename: path traversal detected"), s, [])
    else
      match env.folder_names_and_paths (env.map_legacy save_path) with
      | none => ((400, "Invalid save_path: not found in folder_paths"), s, [])
      | some paths =>
        if paths.isEmpty then
          ((400, "No valid paths configured"), s, [])
        else
          match paths.filter fun p => pyIn "/models/" p with
          | [] => ((400, "No valid model paths configured"), s, [])
          | output_dir :: _ =>
            let output_path := env.abspath (env.joinPath output_dir safe_filename)
            let output_dir2 := env.abspath output_dir
            if ¬ pyStartsWith output_path (output_dir2 ++ "/") then
              ((400, "Security error: attempted directory escape"), s, [])
            else if env.path_exists output_path ∧ ¬ req.override then
              ((200, "confirm_override"), s, [])
            else
              let removeActs :=
                if env.path_exists output_path then ["remove " ++ output_path]
                else []
              let download_id := save_path ++ "/" ++ safe_filename
              let entry : Entry :=
                { url := url, filename := safe_filename,
                  save_path := save_path, output_path := output_path,
                  progress := 0, status := "queued" }
              ((200, "success"),
               { s with
                  active_downloads :=
                    insertA s.active_downloads download_id entry,
                  download_queue :=
                    s.download_queue ++ [⟨download_id, url, output_path⟩] },
               removeActs ++
                 ["makedirs " ++ output_path,
                  "create_task process_download_queue"])

/-- Claim C9: a StartDownload request whose filename contains two dots in a
row or a backslash, or starts with a slash or a tilde, is rejected with a
400 validation response before any I/O occurs: the registry and queue are
unchanged and no filesystem or task action is performed. -/
theorem c9_filename_validation (env : Env) (req : StartReq) (s : Sys)
    (h : pyIn ".." (req.filename.getD "") = true ∨
         pyIn "\\" (req.filename.getD "") = true ∨
         pyStartsWith (req.filename.getD "") "/" = true ∨
         pyStartsWith (req.filename.getD "") "~" = true) :
    (start_download env req s).1.1 = 400 ∧
    (start_download env req s).2.1 = s ∧
    (start_download env req s).2.2 = [] := by
  unfold start_download
  by_cases h0 : req.url.getD "" = "" ∨ req.save_path.getD "" = "" ∨
      req.filename.getD "" = ""
  · simp [h0]
  · rw [if_neg h0]
    by_cases h1 : pyIn "\\" (req.filename.getD "") = true
    · simp [h1]
    · rw [if_neg h1]
      by_cases h2 : pyIn ".." (req.filename.getD "") = true ∨
          pyStartsWith (req.filename.getD "") "/" = true ∨
          pyStartsWith (req.filename.getD "") "~" = true
      · rw [if_pos h2]
        exact ⟨rfl, rfl, rfl⟩
      · exact absurd h (by tauto)

/-- Witness for C9 at the concrete traversal filename from the spec
scenario. -/
theorem c9_filename_validation_witness :
    (start_download
        { map_legacy := fun x => x,
          folder_names_and_paths := fun _ => some ["/models/checkpoints"],
          normpath := fun x => x, abspath := fun x => x,
          joinPath := fun a b => a ++ "/" ++ b,
          path_exists := fun _ => false }
        { url := some "http://example/model.safetensors",
          save_path := some "checkpoints",
          filename := some "../../etc/passwd", override := false }
        { download_queue := [], download_control := [],
          active_downloads := [], files := [] }).1.1 = 400 ∧
    (start_download
        { map_legacy := fun x => x,
          folder_names_and_paths := fun _ => some ["/models/checkpoints"],
          normpath := fun x => x, abspath := fun x => x,
          joinPath := fun a b => a ++ "/" ++ b,
          path_exists := fun _ => false }
        { url := some "http://example/model.safetensors",
          save_path := some "checkpoints",
          filename := some "../../etc/passwd", override := false }
        { download_queue := [], download_control := [],
          active_downloads := [], files := [] }).2.1 =
      { download_queue := [], download_control := [],
        active_downloads := [], files := [] } ∧
    (start_download
        { map_legacy := fun x => x,
          folder_names_and_paths := fun _ => some ["/models/checkpoints"],
          normpath := fun x => x, abspath := fun x => x,
          joinPath := fun a b => a ++ "/" ++ b,
          path_exists := fun _ => false }
        { url := some "http://example/model.safetensors",
          save_path := some "checkpoints",
          filename := some "../../etc/passwd", override := false }
        { download_queue := [], download_control := [],
          active_downloads := [], files := [] }).2.2 = [] :=
  c9_filename_validation _ _ _ (Or.inl (by decide))

end ComfyDownloader
